import Mathlib

/-!
Shallow embedding of `src/Backend/chatBot.py` (WebChatAssistant backend).

The service keeps a process-wide dictionary `session_data` mapping a URL to a
session record (vectorstore handle, chat history, page title).  The external
collaborators — `WebBaseLoader.load`, `RecursiveCharacterTextSplitter.split_documents`,
`Chroma.from_documents`, the retriever and `llm.invoke` — are modelled as an
environment of functions; a Python exception raised by a collaborator is
modelled as `Except.error ()`.  The FastAPI handlers `chat_service` (`POST /query`)
and `reset_session` (`POST /reset`) become explicit state-passing functions on
the session store.
-/

/-- A langchain chat message.  The source dispatches on
`HumanMessage` / `AIMessage` / `SystemMessage` with `isinstance`; `other`
stands for any further langchain message class (e.g. `FunctionMessage`),
which `format_chat_history` silently skips. -/
inductive Message where
  | system (content : String)
  | human (content : String)
  | ai (content : String)
  | other (content : String)
deriving DecidableEq, Repr

/-- The text payload of a message (`msg.content` in the source). -/
def Message.content : Message → String
  | .system c => c
  | .human c => c
  | .ai c => c
  | .other c => c

/-- A langchain `Document`: `page_content` plus the `metadata.get("title")`
lookup result (`none` when the metadata has no `"title"` key). -/
structure Document where
  page_content : String
  title : Option String
deriving DecidableEq, Repr

/-- One entry of `session_data`: `{"vectorstore": ..., "chat_history": ..., "page_title": ...}`.
The vectorstore is an opaque handle, modelled as a `Nat` identifier. -/
structure Session where
  vectorstore : Nat
  chat_history : List Message
  page_title : String
deriving DecidableEq, Repr

/-- The `session_data` dictionary, keyed by URL (used verbatim, case-sensitive). -/
def SessionStore : Type := String → Option Session

/-- Dictionary write `session_data[url] = s`. -/
def SessionStore.update (store : SessionStore) (url : String) (s : Session) : SessionStore :=
  fun u => if u = url then some s else store u

/-- External collaborators, as pure functions.  `Except.error ()` models a
raised Python exception. -/
structure Env where
  load : String → Except Unit (List Document)
  split_documents : List Document → Except Unit (List Document)
  from_documents : List Document → Except Unit Nat
  get_relevant_documents : Nat → String → List Document
  invoke : String → Except Unit String

/-- Response body of `POST /query`: `{"answer": ...}` or `{"error": ...}`. -/
inductive QueryResponse where
  | answer (a : String)
  | error (e : String)
deriving DecidableEq, Repr

/-- Response body of `POST /reset`: `{"status": ..., "message": ...}`. -/
structure ResetResponse where
  status : String
  message : String
deriving DecidableEq, Repr

/-- Line 105: message returned when `loader.load()` yields no documents. -/
def errFailedLoad : String := "Failed to load content from the provided URL"

/-- Lines 111 and 129: message for empty/whitespace-only page content, reused
verbatim by the generic `except Exception` handler. -/
def errNoReadable : String :=
  "The webpage appears to have no readable content. This may be due to authentication requirements or dynamic content loading."

/-- Line 120: message returned when the splitter yields no chunks. -/
def errUnchunkable : String := "Unable to process the webpage content into readable chunks."

/-- Renders one recognized message as in `format_chat_history`'s loop body
(lines 46-52); `none` for an unrecognized message, which the loop skips. -/
def render_message : Message → Option String
  | .human c => some ("Human: " ++ c)
  | .ai c => some ("AI Assistant: " ++ c)
  | .system c => some ("System: " ++ c)
  | .other _ => none

/-- Lines 40-54: format chat history for use in prompts. -/
def format_chat_history (chat_history : List Message) : String :=
  if chat_history = [] then "No previous conversation history."
  else String.intercalate "\n" (chat_history.filterMap render_message)

/-- Lines 174-176: `format_chat_history(chat_history[:-1])`, excluding the
current question. -/
def prompt_transcript (chat_history : List Message) : String :=
  format_chat_history chat_history.dropLast

/-- Lines 169-171: top-k retrieval (`k=6`) and newline-joined context. -/
def retrieved_context (env : Env) (vectorstore : Nat) (query : String) : String :=
  String.intercalate "\n" ((env.get_relevant_documents vectorstore query).map Document.page_content)

/-- Lines 57-89 plus line 185: the prompt template of
`create_context_aware_prompt`, with `context`, `chat_history` and `query`
substituted as `prompt.format` does. -/
def build_prompt (context chat_history query : String) : String :=
  "You are a helpful AI assistant that answers questions about web pages. You maintain context across conversations and have access to both the current page content and the complete conversation history.\n\n=== CURRENT PAGE CONTENT ===\n"
  ++ context
  ++ "\n\n=== CONVERSATION HISTORY ===\n"
  ++ chat_history
  ++ "\n\n=== INSTRUCTIONS ===\n1. **Primary Source**: Use the current page content to answer questions about the webpage\n2. **Memory**: Reference the actual conversation history above when users ask about previous topics or continue discussions\n3. **No Hallucination**: If asked about previous conversations, only use the exact history provided - never make up past interactions\n4. **Contextual Awareness**: Build upon previous exchanges to provide coherent, continuous conversations\n5. **Clarity**: If information isn\x27t available in either the page content or conversation history, clearly state this\n6. **Conversational**: Be natural and engaging while maintaining accuracy\n7. **Formatting Rule**:\n   - Always answer in **a single well-structured paragraph** unless the user explicitly asks for a list, steps, or ordered explanation.\n   - Do **not** use bullet points, headings, or markdown formatting by default.\n   - Keep sentences clear and concise, ensuring smooth transitions between ideas.\n\n=== CURRENT QUESTION ===\n"
  ++ query
  ++ "\n\n=== RESPONSE ===\nProvide a concise, accurate answer based on the above information. If you can\x27t find the answer, say \"You don\x27t have enough information to answer that.\" rather than guessing.\n"

/-- Model of Python `str.strip()` (line 108): remove leading and trailing
whitespace characters.  (`String.trim` is extensionally the same but is
defined by well-founded recursion, which the kernel cannot evaluate.) -/
def pyStrip (s : String) : String :=
  String.mk (((s.data.dropWhile Char.isWhitespace).reverse.dropWhile Char.isWhitespace).reverse)

/-- Lines 136-140: `docs[0].metadata.get("title", "Unknown Page") if docs else "Unknown Page"`. -/
def page_title_of (docs : List Document) : String :=
  match docs with
  | [] => "Unknown Page"
  | d :: _ => d.title.getD "Unknown Page"

/-- Outcome of the session-creation block for a new URL. -/
inductive IngestResult where
  | ok (sess : Session)
  | err (msg : String)
deriving DecidableEq, Repr

/-- Lines 100-148: the new-session block of `chat_service` — load the page,
check content, split, check chunks, build the vectorstore, then initialize the
session record and append the initial System message.  Every exception inside
the `try` block is caught and mapped to `errNoReadable` (line 126-130). -/
def ingest (env : Env) (url : String) : IngestResult :=
  match env.load url with
  | .error _ => .err errNoReadable
  | .ok docs =>
    if docs = [] then .err errFailedLoad
    else if pyStrip (String.join (docs.map Document.page_content)) = "" then .err errNoReadable
    else
      match env.split_documents docs with
      | .error _ => .err errNoReadable
      | .ok splits =>
        if splits = [] then .err errUnchunkable
        else
          match env.from_documents splits with
          | .error _ => .err errNoReadable
          | .ok vs =>
            let title := page_title_of docs
            let sess0 : Session := { vectorstore := vs, chat_history := [], page_title := title }
            let system_msg := Message.system ("Started new conversation about: " ++ title)
            .ok { sess0 with chat_history := sess0.chat_history ++ [system_msg] }

/-- Lines 194-197: keep chat history manageable — when it exceeds 20 messages
replace it by `[chat_history[0]] + chat_history[-19:]`, else leave it as is. -/
def truncate_history (h : List Message) : List Message :=
  if h.length > 20 then h.take 1 ++ h.drop (h.length - 19) else h

/-- Lines 150-199 of `chat_service`: the per-query flow on an existing session —
append the Human message, retrieve context, format the transcript excluding the
current question, build the prompt, invoke the model (an exception propagates,
leaving the appended Human message in the stored history), append the AI
message and truncate.  The `none` branch models the `KeyError` a missing key
would raise (unreachable from `chat_service`). -/
def answer_query (env : Env) (store : SessionStore) (url query : String) :
    SessionStore × Except Unit QueryResponse :=
  match store url with
  | none => (store, .error ())
  | some sess =>
    let history1 := sess.chat_history ++ [Message.human query]
    let store1 := store.update url { sess with chat_history := history1 }
    let context := retrieved_context env sess.vectorstore query
    let formatted_history := prompt_transcript history1
    let promptText := build_prompt context formatted_history query
    match env.invoke promptText with
    | .error _ => (store1, .error ())
    | .ok ai_response =>
      let history2 := history1 ++ [Message.ai ai_response]
      (store1.update url { sess with chat_history := truncate_history history2 },
       .ok (.answer ai_response))

/-- Lines 92-199: the `POST /query` handler.  For a URL not in `session_data`
it runs the ingestion block (returning its `error` envelope without touching
the store on failure, storing the new session on success), then proceeds with
the query flow. -/
def chat_service (env : Env) (store : SessionStore) (url query : String) :
    SessionStore × Except Unit QueryResponse :=
  match store url with
  | none =>
    match ingest env url with
    | .err m => (store, .ok (.error m))
    | .ok sess => answer_query env (store.update url sess) url query
  | some _ => answer_query env store url query

/-- Lines 207-226: the `POST /reset` handler — if a session exists, clear its
history and append a fresh System message (vectorstore and page title kept);
otherwise report `not_found` without touching the store. -/
def reset_session (store : SessionStore) (url : String) : SessionStore × ResetResponse :=
  match store url with
  | some sess =>
    let page_title := sess.page_title
    let sess1 := { sess with chat_history := ([] : List Message) }
    let system_msg := Message.system ("Chat history cleared. Restarted conversation about: " ++ page_title)
    let sess2 := { sess1 with chat_history := sess1.chat_history ++ [system_msg] }
    (store.update url sess2,
     { status := "reset", message := "Chat history for " ++ url ++ " has been cleared" })
  | none => (store, { status := "not_found", message := "No chat history found for this URL" })

/-! ### Specification-side definitions used in claim statements -/

/-- The role label the spec prescribes for each recognized message kind
("Human", "AI Assistant", "System"); unrecognized messages have no label. -/
def role_label : Message → String
  | .human _ => "Human"
  | .ai _ => "AI Assistant"
  | .system _ => "System"
  | .other _ => ""

/-- Whether `format_chat_history`'s `isinstance` dispatch recognizes the
message (Human, AI or System). -/
def Message.recognized : Message → Bool
  | .other _ => false
  | _ => true

/-- The history invariant of the spec's data model: every stored session's
history starts with a System message. -/
def store_inv (store : SessionStore) : Prop :=
  ∀ url sess, store url = some sess →
    ∃ c rest, sess.chat_history = Message.system c :: rest

/-! ### Concrete fixtures -/

/-- Fixture document with a title. -/
def docA : Document := { page_content := "hello world", title := some "T" }

/-- Fixture session, as created by a first query for a page titled `T`. -/
def sessA : Session :=
  { vectorstore := 0
  , chat_history := [Message.system "Started new conversation about: T"]
  , page_title := "T" }

/-- Fixture store holding exactly the session for URL `u`. -/
def storeA : SessionStore := fun v => if v = "u" then some sessA else none

/-- The empty session store. -/
def storeEmpty : SessionStore := fun _ => none

/-- Fixture environment whose collaborators all succeed. -/
def envA : Env :=
  { load := fun _ => .ok [docA]
  , split_documents := fun ds => .ok ds
  , from_documents := fun _ => .ok 0
  , get_relevant_documents := fun _ _ => [docA]
  , invoke := fun _ => .ok "ans" }

/-- Fixture environment whose generator raises. -/
def envGenFail : Env :=
  { load := fun _ => .ok [docA]
  , split_documents := fun ds => .ok ds
  , from_documents := fun _ => .ok 0
  , get_relevant_documents := fun _ _ => [docA]
  , invoke := fun _ => .error () }

/-- Fixture environment whose loader raises. -/
def envLoadFail : Env := { envA with load := fun _ => .error () }

/-- Fixture environment whose loader returns zero documents. -/
def envLoadEmpty : Env := { envA with load := fun _ => .ok [] }

/-- Fixture environment whose loader returns only whitespace content. -/
def envEmptyContent : Env :=
  { envA with load := fun _ => .ok [{ page_content := "  ", title := none }] }

/-- Fixture environment whose splitter raises. -/
def envSplitFail : Env := { envA with split_documents := fun _ => .error () }

/-- Fixture environment whose splitter yields zero chunks. -/
def envSplitEmpty : Env := { envA with split_documents := fun _ => .ok [] }

/-- Fixture environment whose vectorstore builder raises. -/
def envBuildFail : Env := { envA with from_documents := fun _ => .error () }

/-! ### Helper lemmas -/

theorem update_self (store : SessionStore) (url : String) (s : Session) :
    store.update url s url = some s := by
  simp [SessionStore.update]

theorem update_other (store : SessionStore) {url v : String} (s : Session) (h : v ≠ url) :
    store.update url s v = store v := by
  simp [SessionStore.update, h]

theorem truncate_history_of_le (h : List Message) (hl : h.length ≤ 20) :
    truncate_history h = h := by
  simp [truncate_history, Nat.not_lt.mpr hl]

theorem truncate_history_of_gt (h : List Message) (hl : h.length > 20) :
    truncate_history h = h.take 1 ++ h.drop (h.length - 19) := by
  simp [truncate_history, hl]

theorem truncate_history_length_le (h : List Message) :
    (truncate_history h).length ≤ 20 := by
  by_cases hl : h.length > 20
  · rw [truncate_history_of_gt h hl]
    have h1 : (h.take 1).length = 1 := by
      rw [List.length_take]
      omega
    have h2 : (h.drop (h.length - 19)).length = 19 := by
      rw [List.length_drop]
      omega
    rw [List.length_append, h1, h2]
  · rw [truncate_history_of_le h (Nat.not_lt.mp hl)]
    exact Nat.not_lt.mp hl

theorem truncate_history_head? (h : List Message) (hne : h ≠ []) :
    (truncate_history h).head? = h.head? := by
  by_cases hl : h.length > 20
  · rw [truncate_history_of_gt h hl]
    match h, hne with
    | a :: t, _ => simp
  · rw [truncate_history_of_le h (Nat.not_lt.mp hl)]

theorem filterMap_render_eq_map (h : List Message)
    (hr : ∀ m ∈ h, m.recognized = true) :
    h.filterMap render_message
      = h.map (fun m => role_label m ++ ": " ++ m.content) := by
  induction h with
  | nil => rfl
  | cons m t ih =>
    have ht : ∀ x ∈ t, x.recognized = true := fun x hx => hr x (List.mem_cons_of_mem m hx)
    cases m with
    | system c => simp [List.filterMap_cons, render_message, role_label, Message.content, ih ht]
    | human c => simp [List.filterMap_cons, render_message, role_label, Message.content, ih ht]
    | ai c => simp [List.filterMap_cons, render_message, role_label, Message.content, ih ht]
    | other c =>
      have := hr (Message.other c) (List.mem_cons_self _ _)
      simp [Message.recognized] at this

theorem update_update (store : SessionStore) (url : String) (s1 s2 : Session) :
    (store.update url s1).update url s2 = store.update url s2 := by
  funext v
  simp only [SessionStore.update]
  split_ifs <;> rfl

theorem head?_append_left {α : Type _} (l1 l2 : List α) (h : l1 ≠ []) :
    (l1 ++ l2).head? = l1.head? := by
  cases l1 with
  | nil => exact absurd rfl h
  | cons a t => rfl

theorem truncate_history_cons (m : Message) (t : List Message) :
    ∃ t2, truncate_history (m :: t) = m :: t2 := by
  by_cases hl : (m :: t).length > 20
  · rw [truncate_history_of_gt _ hl]
    exact ⟨(m :: t).drop ((m :: t).length - 19), by simp⟩
  · rw [truncate_history_of_le _ (Nat.not_lt.mp hl)]
    exact ⟨t, rfl⟩

theorem answer_query_of_none (env : Env) (store : SessionStore) (url q : String)
    (hs : store url = none) :
    answer_query env store url q = (store, .error ()) := by
  simp only [answer_query, hs]

theorem answer_query_spec (env : Env) (store : SessionStore) (url q : String)
    (sess : Session) (hs : store url = some sess) :
    answer_query env store url q =
      match env.invoke (build_prompt (retrieved_context env sess.vectorstore q)
              (prompt_transcript (sess.chat_history ++ [Message.human q])) q) with
      | .error _ =>
          (store.update url { sess with chat_history := sess.chat_history ++ [Message.human q] },
           .error ())
      | .ok ai_response =>
          ((store.update url { sess with chat_history := sess.chat_history ++ [Message.human q] }).update
              url
              { sess with chat_history :=
                  truncate_history ((sess.chat_history ++ [Message.human q]) ++ [Message.ai ai_response]) },
           .ok (.answer ai_response)) := by
  simp only [answer_query, hs]

theorem chat_service_of_some {env : Env} {store : SessionStore} {url q : String}
    {sess : Session} (hs : store url = some sess) :
    chat_service env store url q = answer_query env store url q := by
  simp only [chat_service, hs]

theorem reset_session_of_some {store : SessionStore} {url : String} {sess : Session}
    (h : store url = some sess) :
    reset_session store url =
      (store.update url { sess with chat_history :=
          [Message.system ("Chat history cleared. Restarted conversation about: " ++ sess.page_title)] },
       { status := "reset", message := "Chat history for " ++ url ++ " has been cleared" }) := by
  simp only [reset_session, h, List.nil_append]

theorem reset_session_of_none {store : SessionStore} {url : String} (h : store url = none) :
    reset_session store url =
      (store, { status := "not_found", message := "No chat history found for this URL" }) := by
  simp only [reset_session, h]

theorem answer_query_at_url (env : Env) (store : SessionStore) (url q : String)
    (sess : Session) (hs : store url = some sess) :
    ∃ sess2, (answer_query env store url q).1 url = some sess2 := by
  rw [answer_query_spec env store url q sess hs]
  split
  · exact ⟨_, update_self _ _ _⟩
  · exact ⟨_, update_self _ _ _⟩

theorem answer_query_frame (env : Env) (store : SessionStore) (u q : String)
    {v : String} (hvu : v ≠ u) :
    (answer_query env store u q).1 v = store v := by
  cases hs : store u with
  | none => rw [answer_query_of_none env store u q hs]
  | some sess =>
    rw [answer_query_spec env store u q sess hs]
    split
    · exact update_other _ _ hvu
    · exact (update_other _ _ hvu).trans (update_other _ _ hvu)

theorem chat_service_frame (env : Env) (store : SessionStore) (u q : String)
    {v : String} (hvu : v ≠ u) :
    (chat_service env store u q).1 v = store v := by
  cases hs : store u with
  | some sess => rw [chat_service_of_some hs, answer_query_frame env store u q hvu]
  | none =>
    simp only [chat_service, hs]
    cases hi : ingest env u with
    | err m => rfl
    | ok sess => rw [answer_query_frame env _ u q hvu, update_other _ _ hvu]

theorem reset_session_frame (store : SessionStore) (u : String) {v : String} (hvu : v ≠ u) :
    (reset_session store u).1 v = store v := by
  cases hs : store u with
  | some sess => rw [reset_session_of_some hs]; exact update_other _ _ hvu
  | none => rw [reset_session_of_none hs]

theorem ingest_of_success {env : Env} {url : String} {docs splits : List Document} {vs : Nat}
    (hload : env.load url = .ok docs) (hdocs : docs ≠ [])
    (hcontent : pyStrip (String.join (docs.map Document.page_content)) ≠ "")
    (hsplit : env.split_documents docs = .ok splits) (hsplits : splits ≠ [])
    (hbuild : env.from_documents splits = .ok vs) :
    ingest env url =
      .ok { vectorstore := vs
          , chat_history := [Message.system ("Started new conversation about: " ++ page_title_of docs)]
          , page_title := page_title_of docs } := by
  simp only [ingest, hload, if_neg hdocs, if_neg hcontent, hsplit, if_neg hsplits, hbuild,
    List.nil_append]

theorem ingest_ok_history (env : Env) (url : String) (sess : Session)
    (h : ingest env url = .ok sess) :
    sess.chat_history = [Message.system ("Started new conversation about: " ++ sess.page_title)] := by
  unfold ingest at h
  split at h
  · simp at h
  · split at h
    · simp at h
    · split at h
      · simp at h
      · split at h
        · simp at h
        · split at h
          · simp at h
          · split at h
            · simp at h
            · cases h; rfl

theorem store_inv_update {store : SessionStore} (hinv : store_inv store) {s : Session}
    (hs : ∃ c rest, s.chat_history = Message.system c :: rest) (url : String) :
    store_inv (store.update url s) := by
  intro v sv hv
  by_cases h : v = url
  · subst h
    rw [update_self] at hv
    cases hv
    exact hs
  · rw [update_other _ _ h] at hv
    exact hinv v sv hv

theorem answer_query_inv (env : Env) (store : SessionStore) (url query : String)
    (hinv : store_inv store) : store_inv (answer_query env store url query).1 := by
  cases hs : store url with
  | none => rw [answer_query_of_none env store url query hs]; exact hinv
  | some sess =>
    obtain ⟨c, rest, hc⟩ := hinv url sess hs
    rw [answer_query_spec env store url query sess hs]
    split
    · exact store_inv_update hinv ⟨c, rest ++ [Message.human query], by rw [hc]; simp⟩ url
    · rename_i x r hr
      apply store_inv_update
        (store_inv_update hinv ⟨c, rest ++ [Message.human query], by rw [hc]; simp⟩ url)
      have hx : (sess.chat_history ++ [Message.human query]) ++ [Message.ai r]
          = Message.system c :: ((rest ++ [Message.human query]) ++ [Message.ai r]) := by
        rw [hc]; simp
      obtain ⟨t2, ht2⟩ :=
        truncate_history_cons (Message.system c) ((rest ++ [Message.human query]) ++ [Message.ai r])
      refine ⟨c, t2, ?_⟩
      show truncate_history ((sess.chat_history ++ [Message.human query]) ++ [Message.ai r])
            = Message.system c :: t2
      rw [hx]
      exact ht2

theorem chat_service_inv (env : Env) (store : SessionStore) (url query : String)
    (hinv : store_inv store) : store_inv (chat_service env store url query).1 := by
  cases hs : store url with
  | some sess => rw [chat_service_of_some hs]; exact answer_query_inv env store url query hinv
  | none =>
    simp only [chat_service, hs]
    cases hi : ingest env url with
    | err m => exact hinv
    | ok sess =>
      apply answer_query_inv
      exact store_inv_update hinv ⟨_, [], ingest_ok_history env url sess hi⟩ url

theorem reset_session_inv (store : SessionStore) (url : String)
    (hinv : store_inv store) : store_inv (reset_session store url).1 := by
  cases hs : store url with
  | none => rw [reset_session_of_none hs]; exact hinv
  | some sess =>
    rw [reset_session_of_some hs]
    exact store_inv_update hinv ⟨_, [], rfl⟩ url

theorem storeA_inv : store_inv storeA := by
  intro v sv hv
  unfold storeA at hv
  split at hv
  · cases hv
    exact ⟨"Started new conversation about: T", [], rfl⟩
  · simp at hv

/-! ### Claim theorems -/

/-- C7: the transcript embedded in the prompt is computed from the history
excluding the just-appended Human message; each recognized message renders as
"RoleLabel: content" with labels "Human", "AI Assistant", "System", joined by
newlines, and an empty history renders as the fixed placeholder string. -/
theorem C7_prompt_transcript :
    (∀ (h : List Message) (q : String),
        prompt_transcript (h ++ [Message.human q]) = format_chat_history h)
    ∧ format_chat_history [] = "No previous conversation history."
    ∧ (∀ h : List Message, h ≠ [] → (∀ m ∈ h, m.recognized = true) →
        format_chat_history h
          = String.intercalate "\n" (h.map fun m => role_label m ++ ": " ++ m.content)) := by
  refine ⟨?_, rfl, ?_⟩
  · intro h q
    simp [prompt_transcript, List.dropLast_concat]
  · intro h hne hr
    rw [format_chat_history, if_neg hne, filterMap_render_eq_map h hr]

/-- Witness for C7 at concrete inputs. -/
theorem C7_prompt_transcript_witness :
    prompt_transcript ([Message.system "s"] ++ [Message.human "q"])
        = format_chat_history [Message.system "s"]
    ∧ (([Message.system "s", Message.ai "a"] : List Message) ≠ []
        ∧ (∀ m ∈ ([Message.system "s", Message.ai "a"] : List Message), m.recognized = true)
        ∧ format_chat_history [Message.system "s", Message.ai "a"]
            = String.intercalate "\n"
                (([Message.system "s", Message.ai "a"] : List Message).map
                  fun m => role_label m ++ ": " ++ m.content)) :=
  ⟨C7_prompt_transcript.1 [Message.system "s"] "q",
   by decide, by decide,
   C7_prompt_transcript.2.2 [Message.system "s", Message.ai "a"] (by decide) (by decide)⟩

/-- C9: `format_chat_history` silently skips messages that are not Human, AI
or System, so a non-empty list of only unrecognized messages renders as the
empty string, not as the placeholder (which only an empty list produces). -/
theorem C9_skip_unrecognized :
    (∀ (c : String) (h₁ h₂ : List Message), h₁ ++ h₂ ≠ [] →
        format_chat_history (h₁ ++ Message.other c :: h₂) = format_chat_history (h₁ ++ h₂))
    ∧ format_chat_history [Message.other "x"] = ""
    ∧ ([Message.other "x"] : List Message) ≠ []
    ∧ format_chat_history [] = "No previous conversation history."
    ∧ ("" : String) ≠ "No previous conversation history." := by
  refine ⟨?_, by decide, by decide, rfl, by decide⟩
  intro c h₁ h₂ hne
  simp only [format_chat_history]
  rw [if_neg (show ¬(h₁ ++ Message.other c :: h₂ = []) by simp), if_neg hne]
  simp [List.filterMap_append, List.filterMap_cons, render_message]

/-- Witness for C9 at concrete inputs. -/
theorem C9_skip_unrecognized_witness :
    (([Message.human "a"] ++ [] : List Message) ≠ [])
    ∧ format_chat_history ([Message.human "a"] ++ Message.other "x" :: [])
        = format_chat_history ([Message.human "a"] ++ []) :=
  ⟨by decide, C9_skip_unrecognized.1 "x" [Message.human "a"] [] (by decide)⟩

/-- C5 counterexample: on a session for URL `u` with stored page title `T`,
`/reset` does not leave a System message whose text is
"restarted conversation about: T" — the actual text is
"Chat history cleared. Restarted conversation about: T". -/
theorem C5_counterexample :
    ((reset_session storeA "u").1 "u").map Session.chat_history
      ≠ some [Message.system ("restarted conversation about: " ++ "T")] := by
  decide

/-- C5 (amended): for every URL with an existing session, `/reset` replaces the
session's history with exactly one fresh System message whose text is
"Chat history cleared. Restarted conversation about: {title}" with the stored
page title, leaves the vector index handle and page title unchanged (so a
subsequent `/query` on the same URL skips ingestion), and responds with
status "reset". -/
theorem C5_reset_existing :
    ∀ (store : SessionStore) (url : String) (sess : Session),
      store url = some sess →
      ∃ sess2,
        (reset_session store url).1 url = some sess2
        ∧ sess2.chat_history
            = [Message.system
                ("Chat history cleared. Restarted conversation about: " ++ sess.page_title)]
        ∧ sess2.vectorstore = sess.vectorstore
        ∧ sess2.page_title = sess.page_title
        ∧ (reset_session store url).2.status = "reset"
        ∧ (∀ (env : Env) (q : String),
            chat_service env (reset_session store url).1 url q
              = answer_query env (reset_session store url).1 url q) := by
  intro store url sess h
  rw [reset_session_of_some h]
  refine ⟨_, update_self _ _ _, rfl, rfl, rfl, rfl, ?_⟩
  intro env q
  exact chat_service_of_some (update_self store url _)

/-- Witness for C5 at concrete inputs. -/
theorem C5_reset_existing_witness :
    storeA "u" = some sessA
    ∧ ∃ sess2,
        (reset_session storeA "u").1 "u" = some sess2
        ∧ sess2.chat_history
            = [Message.system
                ("Chat history cleared. Restarted conversation about: " ++ sessA.page_title)]
        ∧ sess2.vectorstore = sessA.vectorstore
        ∧ sess2.page_title = sessA.page_title
        ∧ (reset_session storeA "u").2.status = "reset"
        ∧ (∀ (env : Env) (q : String),
            chat_service env (reset_session storeA "u").1 "u" q
              = answer_query env (reset_session storeA "u").1 "u" q) :=
  ⟨by decide, C5_reset_existing storeA "u" sessA (by decide)⟩

/-- C6: `/reset` is idempotent on the session store — applying it twice yields
the same store as applying it once — and on an unknown URL it returns status
"not_found" and leaves the store entirely unchanged. -/
theorem C6_reset_idempotent :
    ∀ (store : SessionStore) (url : String),
      (reset_session (reset_session store url).1 url).1 = (reset_session store url).1
      ∧ (store url = none →
          (reset_session store url).1 = store
          ∧ (reset_session store url).2.status = "not_found") := by
  intro store url
  constructor
  · cases hs : store url with
    | none =>
      rw [reset_session_of_none hs]
      show (reset_session store url).1 = store
      rw [reset_session_of_none hs]
    | some sess =>
      rw [reset_session_of_some hs]
      show (reset_session (store.update url _) url).1 = store.update url _
      rw [reset_session_of_some (update_self store url _)]
      show (store.update url _).update url _ = _
      rw [update_update]
  · intro hn
    rw [reset_session_of_none hn]
    exact ⟨rfl, rfl⟩

/-- Witness for C6 at concrete inputs. -/
theorem C6_reset_idempotent_witness :
    (reset_session (reset_session storeA "u").1 "u").1 = (reset_session storeA "u").1
    ∧ (storeEmpty "u" = none
        ∧ (reset_session storeEmpty "u").1 = storeEmpty
        ∧ (reset_session storeEmpty "u").2.status = "not_found") :=
  ⟨(C6_reset_idempotent storeA "u").1,
   rfl, (C6_reset_idempotent storeEmpty "u").2 rfl⟩

/-- C10: frame property — `/query` and `/reset` for URL `u` leave the session
stored for any other URL `v` unchanged, and `/reset` never creates a session
for any URL. -/
theorem C10_frame :
    (∀ (env : Env) (store : SessionStore) (u v q : String),
        u ≠ v → (chat_service env store u q).1 v = store v)
    ∧ (∀ (store : SessionStore) (u v : String),
        u ≠ v → (reset_session store u).1 v = store v)
    ∧ (∀ (store : SessionStore) (u v : String),
        store v = none → (reset_session store u).1 v = none) := by
  refine ⟨?_, ?_, ?_⟩
  · intro env store u v q huv
    exact chat_service_frame env store u q (Ne.symm huv)
  · intro store u v huv
    exact reset_session_frame store u (Ne.symm huv)
  · intro store u v hv
    by_cases h : v = u
    · subst h
      rw [reset_session_of_none hv]
      exact hv
    · rw [reset_session_frame store u h]
      exact hv

/-- Witness for C10 at concrete inputs. -/
theorem C10_frame_witness :
    ("u" : String) ≠ "w"
    ∧ (chat_service envA storeA "u" "q").1 "w" = storeA "w"
    ∧ (reset_session storeA "u").1 "w" = storeA "w"
    ∧ storeA "w" = none
    ∧ (reset_session storeA "u").1 "w" = none :=
  ⟨by decide,
   C10_frame.1 envA storeA "u" "w" "q" (by decide),
   C10_frame.2.1 storeA "u" "w" (by decide),
   by decide,
   C10_frame.2.2 storeA "u" "w" (by decide)⟩

/-- C1: for a URL with no session whose ingestion yields non-empty content,
`/query` creates exactly one session for that URL; immediately after creation
its history is exactly one System message whose text contains the page title,
the title taken from the first document's metadata and defaulting to
"Unknown Page" when absent. -/
theorem C1_session_creation :
    ∀ (env : Env) (store : SessionStore) (url query : String)
      (docs splits : List Document) (vs : Nat),
      store url = none →
      env.load url = .ok docs →
      docs ≠ [] →
      pyStrip (String.join (docs.map Document.page_content)) ≠ "" →
      env.split_documents docs = .ok splits →
      splits ≠ [] →
      env.from_documents splits = .ok vs →
      ∃ sess, ingest env url = .ok sess
        ∧ sess.chat_history
            = [Message.system ("Started new conversation about: " ++ page_title_of docs)]
        ∧ (∃ p s, ("Started new conversation about: " ++ page_title_of docs)
              = p ++ page_title_of docs ++ s)
        ∧ sess.page_title = page_title_of docs
        ∧ (∀ (d : Document) (ds : List Document) (t : String),
            d.title = some t → page_title_of (d :: ds) = t)
        ∧ (∀ (d : Document) (ds : List Document),
            d.title = none → page_title_of (d :: ds) = "Unknown Page")
        ∧ chat_service env store url query = answer_query env (store.update url sess) url query
        ∧ ∃ sess2, (chat_service env store url query).1 url = some sess2 := by
  intro env store url query docs splits vs hstore hload hdocs hcontent hsplit hsplits hbuild
  have hing := ingest_of_success hload hdocs hcontent hsplit hsplits hbuild
  set sessN : Session :=
    { vectorstore := vs
    , chat_history := [Message.system ("Started new conversation about: " ++ page_title_of docs)]
    , page_title := page_title_of docs } with hsessN
  have hsvc : chat_service env store url query
      = answer_query env (store.update url sessN) url query := by
    simp only [chat_service, hstore, hing]
  refine ⟨sessN, hing, rfl, ⟨"Started new conversation about: ", "", by simp⟩, rfl, ?_, ?_, hsvc,
    ?_⟩
  · intro d ds t ht
    simp [page_title_of, ht]
  · intro d ds ht
    simp [page_title_of, ht]
  · rw [hsvc]
    exact answer_query_at_url env _ url query _ (update_self store url _)

/-- Witness for C1 at concrete inputs. -/
theorem C1_session_creation_witness :
    storeEmpty "u" = none
    ∧ envA.load "u" = .ok [docA]
    ∧ ([docA] : List Document) ≠ []
    ∧ pyStrip (String.join (([docA] : List Document).map Document.page_content)) ≠ ""
    ∧ envA.split_documents [docA] = .ok [docA]
    ∧ ([docA] : List Document) ≠ []
    ∧ envA.from_documents [docA] = .ok 0
    ∧ ∃ sess, ingest envA "u" = .ok sess
        ∧ sess.chat_history
            = [Message.system ("Started new conversation about: " ++ page_title_of [docA])]
        ∧ (∃ p s, ("Started new conversation about: " ++ page_title_of [docA])
              = p ++ page_title_of [docA] ++ s)
        ∧ sess.page_title = page_title_of [docA]
        ∧ (∀ (d : Document) (ds : List Document) (t : String),
            d.title = some t → page_title_of (d :: ds) = t)
        ∧ (∀ (d : Document) (ds : List Document),
            d.title = none → page_title_of (d :: ds) = "Unknown Page")
        ∧ chat_service envA storeEmpty "u" "q" = answer_query envA (storeEmpty.update "u" sess) "u" "q"
        ∧ ∃ sess2, (chat_service envA storeEmpty "u" "q").1 "u" = some sess2 :=
  ⟨rfl, rfl, by decide, by decide, rfl, by decide, rfl,
   C1_session_creation envA storeEmpty "u" "q" [docA] [docA] 0
     rfl rfl (by decide) (by decide) rfl (by decide) rfl⟩

/-- C2: for a URL with no session, every ingestion-failure cause — loader
exception, zero documents, empty/whitespace-only content, splitter exception,
zero chunks, or index-build exception — makes `/query` return an `error` field
with the fixed message of its cause category and leaves the session store
unchanged (so a later call re-attempts ingestion); the three category
messages are pairwise distinct. -/
theorem C2_ingestion_failure :
    ∀ (env : Env) (store : SessionStore) (url query : String),
      store url = none →
      (env.load url = .error () →
          chat_service env store url query = (store, .ok (.error errNoReadable)))
      ∧ (env.load url = .ok [] →
          chat_service env store url query = (store, .ok (.error errFailedLoad)))
      ∧ (∀ docs, env.load url = .ok docs → docs ≠ [] →
            pyStrip (String.join (docs.map Document.page_content)) = "" →
            chat_service env store url query = (store, .ok (.error errNoReadable)))
      ∧ (∀ docs, env.load url = .ok docs → docs ≠ [] →
            pyStrip (String.join (docs.map Document.page_content)) ≠ "" →
            env.split_documents docs = .error () →
            chat_service env store url query = (store, .ok (.error errNoReadable)))
      ∧ (∀ docs, env.load url = .ok docs → docs ≠ [] →
            pyStrip (String.join (docs.map Document.page_content)) ≠ "" →
            env.split_documents docs = .ok [] →
            chat_service env store url query = (store, .ok (.error errUnchunkable)))
      ∧ (∀ docs splits, env.load url = .ok docs → docs ≠ [] →
            pyStrip (String.join (docs.map Document.page_content)) ≠ "" →
            env.split_documents docs = .ok splits → splits ≠ [] →
            env.from_documents splits = .error () →
            chat_service env store url query = (store, .ok (.error errNoReadable)))
      ∧ (errFailedLoad ≠ errNoReadable ∧ errFailedLoad ≠ errUnchunkable
          ∧ errNoReadable ≠ errUnchunkable) := by
  intro env store url query hstore
  refine ⟨?_, ?_, ?_, ?_, ?_, ?_, by decide, by decide, by decide⟩
  · intro hload
    simp only [chat_service, hstore, ingest, hload]
  · intro hload
    simp [chat_service, hstore, ingest, hload]
  · intro docs hload hdocs hcontent
    simp only [chat_service, hstore, ingest, hload, if_neg hdocs, if_pos hcontent]
  · intro docs hload hdocs hcontent hsplit
    simp only [chat_service, hstore, ingest, hload, if_neg hdocs, if_neg hcontent, hsplit]
  · intro docs hload hdocs hcontent hsplit
    simp [chat_service, hstore, ingest, hload, if_neg hdocs, if_neg hcontent, hsplit]
  · intro docs splits hload hdocs hcontent hsplit hsplits hbuild
    simp only [chat_service, hstore, ingest, hload, if_neg hdocs, if_neg hcontent, hsplit,
      if_neg hsplits, hbuild]

/-- Witness for C2 at concrete inputs, one environment per failure cause. -/
theorem C2_ingestion_failure_witness :
    storeEmpty "u" = none
    ∧ envLoadFail.load "u" = .error ()
    ∧ chat_service envLoadFail storeEmpty "u" "q" = (storeEmpty, .ok (.error errNoReadable))
    ∧ chat_service envLoadEmpty storeEmpty "u" "q" = (storeEmpty, .ok (.error errFailedLoad))
    ∧ chat_service envEmptyContent storeEmpty "u" "q" = (storeEmpty, .ok (.error errNoReadable))
    ∧ chat_service envSplitFail storeEmpty "u" "q" = (storeEmpty, .ok (.error errNoReadable))
    ∧ chat_service envSplitEmpty storeEmpty "u" "q" = (storeEmpty, .ok (.error errUnchunkable))
    ∧ chat_service envBuildFail storeEmpty "u" "q" = (storeEmpty, .ok (.error errNoReadable)) :=
  ⟨rfl, rfl,
   (C2_ingestion_failure envLoadFail storeEmpty "u" "q" rfl).1 rfl,
   (C2_ingestion_failure envLoadEmpty storeEmpty "u" "q" rfl).2.1 rfl,
   (C2_ingestion_failure envEmptyContent storeEmpty "u" "q" rfl).2.2.1
     [{ page_content := "  ", title := none }] rfl (by decide) (by decide),
   (C2_ingestion_failure envSplitFail storeEmpty "u" "q" rfl).2.2.2.1
     [docA] rfl (by decide) (by decide) rfl,
   (C2_ingestion_failure envSplitEmpty storeEmpty "u" "q" rfl).2.2.2.2.1
     [docA] rfl (by decide) (by decide) rfl,
   (C2_ingestion_failure envBuildFail storeEmpty "u" "q" rfl).2.2.2.2.2.1
     [docA] [docA] rfl (by decide) (by decide) rfl (by decide) rfl⟩

/-- C3: after each successful exchange (Human then AI appended), the stored
history is replaced by element 0 plus the last 19 elements exactly when its
length exceeds 20 — the check runs on the post-exchange history — and after
the check the length never exceeds 20. -/
theorem C3_truncation :
    (∀ (env : Env) (store : SessionStore) (url query : String) (sess : Session) (a : String),
        store url = some sess →
        (answer_query env store url query).2 = .ok (.answer a) →
        ∃ sess2, (answer_query env store url query).1 url = some sess2
          ∧ sess2.chat_history
              = truncate_history ((sess.chat_history ++ [Message.human query]) ++ [Message.ai a]))
    ∧ (∀ h : List Message, h.length > 20 →
        truncate_history h = h.take 1 ++ h.drop (h.length - 19))
    ∧ (∀ h : List Message, h.length ≤ 20 → truncate_history h = h)
    ∧ (∀ h : List Message, (truncate_history h).length ≤ 20) := by
  refine ⟨?_, truncate_history_of_gt, truncate_history_of_le, truncate_history_length_le⟩
  intro env store url query sess a hs hresp
  rw [answer_query_spec env store url query sess hs] at hresp ⊢
  revert hresp
  split
  · intro hresp
    simp at hresp
  · rename_i x r hr
    intro hresp
    have hra : r = a := by simpa using hresp
    subst hra
    exact ⟨_, update_self _ _ _, rfl⟩

/-- Witness for C3 at concrete inputs. -/
theorem C3_truncation_witness :
    storeA "u" = some sessA
    ∧ (answer_query envA storeA "u" "q").2 = .ok (.answer "ans")
    ∧ (∃ sess2, (answer_query envA storeA "u" "q").1 "u" = some sess2
        ∧ sess2.chat_history
            = truncate_history ((sessA.chat_history ++ [Message.human "q"]) ++ [Message.ai "ans"]))
    ∧ (List.replicate 21 (Message.human "m")).length > 20
    ∧ truncate_history (List.replicate 21 (Message.human "m"))
        = (List.replicate 21 (Message.human "m")).take 1
          ++ (List.replicate 21 (Message.human "m")).drop
              ((List.replicate 21 (Message.human "m")).length - 19)
    ∧ sessA.chat_history.length ≤ 20
    ∧ truncate_history sessA.chat_history = sessA.chat_history
    ∧ (truncate_history (List.replicate 21 (Message.human "m"))).length ≤ 20 :=
  ⟨by decide, rfl,
   C3_truncation.1 envA storeA "u" "q" sessA "ans" (by decide) rfl,
   by decide,
   C3_truncation.2.1 (List.replicate 21 (Message.human "m")) (by decide),
   by decide,
   C3_truncation.2.2.1 sessA.chat_history (by decide),
   C3_truncation.2.2.2 (List.replicate 21 (Message.human "m"))⟩

/-- C8: if the answer generator raises, the exception propagates uncaught out
of the handler (no error-field response), and the Human message appended
before generation remains in the stored session history. -/
theorem C8_generation_failure :
    ∀ (env : Env) (store : SessionStore) (url query : String) (sess : Session),
      store url = some sess →
      env.invoke (build_prompt (retrieved_context env sess.vectorstore query)
          (prompt_transcript (sess.chat_history ++ [Message.human query])) query) = .error () →
      (answer_query env store url query).2 = .error ()
      ∧ (chat_service env store url query).2 = .error ()
      ∧ (answer_query env store url query).1 url
          = some { sess with chat_history := sess.chat_history ++ [Message.human query] } := by
  intro env store url query sess hs hinv
  have h1 : answer_query env store url query
      = (store.update url { sess with chat_history := sess.chat_history ++ [Message.human query] },
         .error ()) := by
    rw [answer_query_spec env store url query sess hs, hinv]
  rw [chat_service_of_some hs, h1]
  exact ⟨rfl, rfl, update_self _ _ _⟩

/-- Witness for C8 at concrete inputs. -/
theorem C8_generation_failure_witness :
    storeA "u" = some sessA
    ∧ envGenFail.invoke (build_prompt (retrieved_context envGenFail sessA.vectorstore "q")
        (prompt_transcript (sessA.chat_history ++ [Message.human "q"])) "q") = .error ()
    ∧ ((answer_query envGenFail storeA "u" "q").2 = .error ()
        ∧ (chat_service envGenFail storeA "u" "q").2 = .error ()
        ∧ (answer_query envGenFail storeA "u" "q").1 "u"
            = some { sessA with chat_history := sessA.chat_history ++ [Message.human "q"] }) :=
  ⟨by decide, rfl, C8_generation_failure envGenFail storeA "u" "q" sessA (by decide) rfl⟩

/-- C4: the invariant "every stored session's history starts with the most
recently set System message" is preserved by `/query` (including truncation)
and `/reset`: both operations keep every stored history starting with a System
message, and a query on an existing session never changes element 0. -/
theorem C4_history_invariant :
    (∀ (env : Env) (store : SessionStore) (url query : String),
        store_inv store → store_inv (chat_service env store url query).1)
    ∧ (∀ (store : SessionStore) (url : String),
        store_inv store → store_inv (reset_session store url).1)
    ∧ (∀ (env : Env) (store : SessionStore) (url query : String) (sess sess2 : Session),
        store url = some sess → sess.chat_history ≠ [] →
        (answer_query env store url query).1 url = some sess2 →
        sess2.chat_history.head? = sess.chat_history.head?) := by
  refine ⟨fun env store url query hinv => chat_service_inv env store url query hinv,
    fun store url hinv => reset_session_inv store url hinv, ?_⟩
  intro env store url query sess sess2 hs hne h2
  rw [answer_query_spec env store url query sess hs] at h2
  revert h2
  split
  · intro h2
    have h2' : (store.update url
        { sess with chat_history := sess.chat_history ++ [Message.human query] }) url
          = some sess2 := h2
    rw [update_self] at h2'
    cases h2'
    exact head?_append_left _ _ hne
  · rename_i x r hr
    intro h2
    have h2' : ((store.update url
        { sess with chat_history := sess.chat_history ++ [Message.human query] }).update url
        { sess with chat_history :=
            truncate_history ((sess.chat_history ++ [Message.human query]) ++ [Message.ai r]) }) url
          = some sess2 := h2
    rw [update_self] at h2'
    cases h2'
    show (truncate_history ((sess.chat_history ++ [Message.human query]) ++ [Message.ai r])).head?
        = sess.chat_history.head?
    rw [truncate_history_head?
        ((sess.chat_history ++ [Message.human query]) ++ [Message.ai r]) (by simp)]
    rw [head?_append_left (sess.chat_history ++ [Message.human query]) [Message.ai r] (by simp)]
    exact head?_append_left sess.chat_history [Message.human query] hne

/-- Witness for C4 at concrete inputs. -/
theorem C4_history_invariant_witness :
    store_inv storeA
    ∧ store_inv (chat_service envA storeA "u" "q").1
    ∧ store_inv (reset_session storeA "u").1
    ∧ storeA "u" = some sessA
    ∧ sessA.chat_history ≠ []
    ∧ ∃ sess2, (answer_query envA storeA "u" "q").1 "u" = some sess2
        ∧ sess2.chat_history.head? = sessA.chat_history.head? := by
  refine ⟨storeA_inv,
    C4_history_invariant.1 envA storeA "u" "q" storeA_inv,
    C4_history_invariant.2.1 storeA "u" storeA_inv,
    by decide, by decide, ?_⟩
  obtain ⟨sess2, h2⟩ := answer_query_at_url envA storeA "u" "q" sessA (by decide)
  exact ⟨sess2, h2,
    C4_history_invariant.2.2 envA storeA "u" "q" sessA sess2 (by decide) (by decide) h2⟩
